import Mathlib

/-!
Verification of the CarbonSense front-end (src/frontend/src/App.jsx).

The real-number parts (the Haversine distance calculator) are embedded over ℝ,
with JavaScript's `Math.atan2` modelled by an explicit case split.  The React
component's state handling (`handlePredict`, `searchLocation`,
`handleLocationSelect`, `clearLocation`, the prediction history) is embedded as
explicit state-passing functions over a record of the component's `useState`
slots, with the outcome of each network call passed in as a parameter.
-/

namespace CarbonSense

noncomputable section

open Real

open scoped Classical

/-- JavaScript's `Math.atan2 y x` (sign conventions of IEEE atan2; the
signed-zero distinction is not modelled). -/
def atan2 (y x : ℝ) : ℝ :=
  if 0 < x then arctan (y / x)
  else if x < 0 then
    (if 0 ≤ y then arctan (y / x) + π else arctan (y / x) - π)
  else if 0 < y then π / 2
  else if y < 0 then -(π / 2)
  else 0

/-- `calculateDistance` (App.jsx:454-461): the local `a`,
`a = sin(dLat/2)*sin(dLat/2) + cos(lat1*π/180)*cos(lat2*π/180)*sin(dLon/2)*sin(dLon/2)`
with `dLat = (lat2-lat1)*π/180` and `dLon = (lon2-lon1)*π/180`. -/
def haversineA (lat1 lon1 lat2 lon2 : ℝ) : ℝ :=
  sin ((lat2 - lat1) * π / 180 / 2) * sin ((lat2 - lat1) * π / 180 / 2) +
    cos (lat1 * π / 180) * cos (lat2 * π / 180) *
      sin ((lon2 - lon1) * π / 180 / 2) * sin ((lon2 - lon1) * π / 180 / 2)

/-- `calculateDistance` (App.jsx:462): the local `c = 2 * atan2(√a, √(1-a))`. -/
def centralAngle (lat1 lon1 lat2 lon2 : ℝ) : ℝ :=
  2 * atan2 (Real.sqrt (haversineA lat1 lon1 lat2 lon2))
      (Real.sqrt (1 - haversineA lat1 lon1 lat2 lon2))

/-- `calculateDistance` (App.jsx:454-463): the local `distance = R * c` with
`R = 6371`.  This is the value the component computes from its four inputs
(before formatting it with `toFixed(2)` into form state). -/
def calculateDistance (lat1 lon1 lat2 lon2 : ℝ) : ℝ :=
  6371 * centralAngle lat1 lon1 lat2 lon2

/-- Modelled from the spec (section 4.1), word for word: "convert the
latitude/longitude delta to radians; compute
`a = sin²(Δlat/2) + cos(lat1)·cos(lat2)·sin²(Δlon/2)`; compute central angle
`c = 2·atan2(√a, √(1-a))`; multiply by Earth's mean radius, 6371 km"
(latitudes are taken in radians inside the cosines). -/
def haversineSpecDistance (lat1 lon1 lat2 lon2 : ℝ) : ℝ :=
  let dlat := (lat2 - lat1) * π / 180
  let dlon := (lon2 - lon1) * π / 180
  let a := sin (dlat / 2) ^ 2 +
    cos (lat1 * π / 180) * cos (lat2 * π / 180) * sin (dlon / 2) ^ 2
  let c := 2 * atan2 (Real.sqrt a) (Real.sqrt (1 - a))
  6371 * c

lemma atan2_nonneg {y x : ℝ} (hy : 0 ≤ y) (hx : 0 ≤ x) : 0 ≤ atan2 y x := by
  unfold atan2
  split_ifs with h1 h2 h3 h4
  · rw [arctan_eq_arcsin]
    exact arcsin_nonneg.mpr (div_nonneg (div_nonneg hy h1.le) (sqrt_nonneg _))
  · linarith
  · linarith [pi_pos]
  · linarith
  · exact le_refl 0

lemma haversineA_self (lat lon : ℝ) : haversineA lat lon lat lon = 0 := by
  unfold haversineA
  simp

lemma atan2_zero_one : atan2 0 1 = 0 := by
  unfold atan2
  rw [if_pos one_pos]
  norm_num [arctan_zero]

lemma atan2_one_zero : atan2 1 0 = π / 2 := by
  unfold atan2
  norm_num

lemma centralAngle_self (lat lon : ℝ) : centralAngle lat lon lat lon = 0 := by
  unfold centralAngle
  rw [haversineA_self]
  norm_num [atan2_zero_one]

lemma haversineA_symm (lat1 lon1 lat2 lon2 : ℝ) :
    haversineA lat1 lon1 lat2 lon2 = haversineA lat2 lon2 lat1 lon1 := by
  unfold haversineA
  rw [show (lat1 - lat2) * π / 180 / 2 = -((lat2 - lat1) * π / 180 / 2) by ring,
    show (lon1 - lon2) * π / 180 / 2 = -((lon2 - lon1) * π / 180 / 2) by ring,
    Real.sin_neg, Real.sin_neg]
  ring

lemma centralAngle_zeros : centralAngle 0 0 0 0 = 0 := centralAngle_self 0 0

lemma haversineA_antipodal : haversineA 0 0 0 180 = 1 := by
  unfold haversineA
  rw [show ((180 : ℝ) - 0) * π / 180 / 2 = π / 2 by ring]
  simp

lemma centralAngle_antipodal : centralAngle 0 0 0 180 = π := by
  unfold centralAngle
  rw [haversineA_antipodal]
  norm_num [atan2_one_zero]
  ring

/-- C1: the distance calculator implements the Haversine algorithm exactly as
specified: converting the coordinate deltas to radians, forming
`a = sin²(Δlat/2) + cos(lat1)·cos(lat2)·sin²(Δlon/2)`,
`c = 2·atan2(√a, √(1-a))`, and returning `6371 · c`; it is a pure function of
its four inputs (both sides are plain functions of exactly these arguments). -/
theorem C1_haversine_matches_spec (lat1 lon1 lat2 lon2 : ℝ) :
    calculateDistance lat1 lon1 lat2 lon2 = haversineSpecDistance lat1 lon1 lat2 lon2 := by
  unfold calculateDistance centralAngle haversineA haversineSpecDistance
  norm_num [pow_two]
  ring_nf

/-- C6: for every coordinate with latitude in [-90, 90] and longitude in
[-180, 180], the distance from the point to itself is exactly 0. -/
theorem C6_self_distance_zero (lat lon : ℝ)
    (_h1 : -90 ≤ lat) (_h2 : lat ≤ 90) (_h3 : -180 ≤ lon) (_h4 : lon ≤ 180) :
    calculateDistance lat lon lat lon = 0 := by
  unfold calculateDistance
  rw [centralAngle_self]
  ring

/-- Witness for C6 at the concrete coordinate (0, 0). -/
theorem C6_witness :
    ((-90 : ℝ) ≤ 0 ∧ (0 : ℝ) ≤ 90 ∧ (-180 : ℝ) ≤ 0 ∧ (0 : ℝ) ≤ 180) ∧
      calculateDistance 0 0 0 0 = 0 :=
  ⟨⟨by norm_num, by norm_num, by norm_num, by norm_num⟩,
    C6_self_distance_zero 0 0 (by norm_num) (by norm_num) (by norm_num) (by norm_num)⟩

/-- C7: the distance function is symmetric in its two points, for all valid
coordinates. -/
theorem C7_distance_symm (lat1 lon1 lat2 lon2 : ℝ)
    (_h1 : -90 ≤ lat1) (_h2 : lat1 ≤ 90) (_h3 : -180 ≤ lon1) (_h4 : lon1 ≤ 180)
    (_h5 : -90 ≤ lat2) (_h6 : lat2 ≤ 90) (_h7 : -180 ≤ lon2) (_h8 : lon2 ≤ 180) :
    calculateDistance lat1 lon1 lat2 lon2 = calculateDistance lat2 lon2 lat1 lon1 := by
  unfold calculateDistance centralAngle
  rw [haversineA_symm]

/-- Witness for C7 at London / Paris. -/
theorem C7_witness :
    calculateDistance 51.5074 (-0.1278) 48.8566 2.3522 =
      calculateDistance 48.8566 2.3522 51.5074 (-0.1278) :=
  C7_distance_symm 51.5074 (-0.1278) 48.8566 2.3522
    (by norm_num) (by norm_num) (by norm_num) (by norm_num)
    (by norm_num) (by norm_num) (by norm_num) (by norm_num)

/-- C8: for all valid coordinates the returned distance is non-negative, and
the distance is strictly monotone in the central angle: between any two input
quadruples, a strictly larger central angle `c` gives a strictly larger
distance `6371·c`. -/
theorem C8_nonneg_and_monotone :
    (∀ lat1 lon1 lat2 lon2 : ℝ,
      -90 ≤ lat1 → lat1 ≤ 90 → -180 ≤ lon1 → lon1 ≤ 180 →
      -90 ≤ lat2 → lat2 ≤ 90 → -180 ≤ lon2 → lon2 ≤ 180 →
      0 ≤ calculateDistance lat1 lon1 lat2 lon2) ∧
    (∀ a1 b1 c1 d1 a2 b2 c2 d2 : ℝ,
      centralAngle a1 b1 c1 d1 < centralAngle a2 b2 c2 d2 →
      calculateDistance a1 b1 c1 d1 < calculateDistance a2 b2 c2 d2) := by
  constructor
  · intro lat1 lon1 lat2 lon2 _ _ _ _ _ _ _ _
    unfold calculateDistance centralAngle
    have h := atan2_nonneg (sqrt_nonneg (haversineA lat1 lon1 lat2 lon2))
      (sqrt_nonneg (1 - haversineA lat1 lon1 lat2 lon2))
    linarith
  · intro a1 b1 c1 d1 a2 b2 c2 d2 h
    unfold calculateDistance
    linarith

/-- Witness for C8: non-negativity at London/Paris, and strict monotonicity
between the degenerate pair (0,0)-(0,0) (central angle 0) and the antipodal
pair (0,0)-(0,180) (central angle π). -/
theorem C8_witness :
    0 ≤ calculateDistance 51.5074 (-0.1278) 48.8566 2.3522 ∧
      calculateDistance 0 0 0 0 < calculateDistance 0 0 0 180 :=
  ⟨C8_nonneg_and_monotone.1 51.5074 (-0.1278) 48.8566 2.3522
      (by norm_num) (by norm_num) (by norm_num) (by norm_num)
      (by norm_num) (by norm_num) (by norm_num) (by norm_num),
    C8_nonneg_and_monotone.2 0 0 0 0 0 0 0 180
      (by rw [centralAngle_zeros, centralAngle_antipodal]; exact pi_pos)⟩

/-! ## Numerical evaluation of the London-Paris fixture

The central angle `2 * atan2(√a, √(1-a))` equals `2 * arcsin √a` for
`0 ≤ a < 1`; `a` is bracketed by interval arithmetic from the Taylor bounds
`Real.sin_bound` / `Real.cos_bound` (applied at quarter angles, which lie
well inside `[-1, 1]`), the monotonicity of `sin`/`cos`, and the decimal
bounds on `π`. -/

lemma atan2_sqrt_eq_arcsin {a : ℝ} (h0 : 0 ≤ a) (h1 : a < 1) :
    atan2 (Real.sqrt a) (Real.sqrt (1 - a)) = arcsin (Real.sqrt a) := by
  have hpos : 0 < Real.sqrt (1 - a) := Real.sqrt_pos.mpr (by linarith)
  have hb : Real.sqrt (1 - a) ^ 2 = 1 - a := Real.sq_sqrt (by linarith)
  have ha : Real.sqrt a ^ 2 = a := Real.sq_sqrt h0
  unfold atan2
  rw [if_pos hpos, arctan_eq_arcsin]
  congr 1
  have hne : (1 : ℝ) - a ≠ 0 := by linarith
  have key : 1 + (Real.sqrt a / Real.sqrt (1 - a)) ^ 2 = (Real.sqrt (1 - a))⁻¹ ^ 2 := by
    rw [div_pow, ha, hb, inv_pow, hb]
    field_simp
  rw [key, Real.sqrt_sq (by positivity)]
  field_simp

lemma cos_double_sin_sq (y : ℝ) : Real.cos (2 * y) = 1 - 2 * Real.sin y ^ 2 := by
  rw [Real.cos_two_mul']
  have h := Real.sin_sq_add_cos_sq y
  linarith

lemma mul_bounds {x y xl xu yl yu : ℝ} (hx1 : xl ≤ x) (hx2 : x ≤ xu)
    (hy1 : yl ≤ y) (hy2 : y ≤ yu) (hxl : 0 ≤ xl) (hyl : 0 ≤ yl) :
    xl * yl ≤ x * y ∧ x * y ≤ xu * yu := by
  have hx0 : 0 ≤ x := le_trans hxl hx1
  have hy0 : 0 ≤ y := le_trans hyl hy1
  have hxu : 0 ≤ xu := le_trans hx0 hx2
  have hyu : 0 ≤ yu := le_trans hy0 hy2
  constructor
  · nlinarith [mul_nonneg (sub_nonneg.2 hx1) (sub_nonneg.2 hy1),
      mul_nonneg hxl (sub_nonneg.2 hy1), mul_nonneg hyl (sub_nonneg.2 hx1)]
  · nlinarith [mul_nonneg (sub_nonneg.2 hx2) (sub_nonneg.2 hy2),
      mul_nonneg hxu (sub_nonneg.2 hy2), mul_nonneg hyu (sub_nonneg.2 hx2)]

lemma sq_bounds {x l u : ℝ} (h1 : l ≤ x) (h2 : x ≤ u) (hl : 0 ≤ l) :
    l ^ 2 ≤ x ^ 2 ∧ x ^ 2 ≤ u ^ 2 := by
  obtain ⟨hm1, hm2⟩ := mul_bounds h1 h2 h1 h2 hl hl
  constructor <;> nlinarith [hm1, hm2]

lemma sin_bounds_of_bracket {x a b sl su : ℝ} (hax : a ≤ x) (hxb : x ≤ b)
    (ha0 : 0 ≤ a) (hb1 : b ≤ 1)
    (hsl : sl ≤ a - a ^ 3 / 6 - a ^ 4 * (5 / 96))
    (hsu : b - b ^ 3 / 6 + b ^ 4 * (5 / 96) ≤ su) :
    sl ≤ Real.sin x ∧ Real.sin x ≤ su := by
  have hb0 : 0 ≤ b := le_trans ha0 (le_trans hax hxb)
  have ha1 : a ≤ 1 := le_trans (le_trans hax hxb) hb1
  have hpi : (1 : ℝ) < π / 2 := by nlinarith [pi_gt_three]
  have hmem_a : a ∈ Set.Icc (-(π / 2)) (π / 2) := ⟨by nlinarith, by nlinarith⟩
  have hmem_b : b ∈ Set.Icc (-(π / 2)) (π / 2) := ⟨by nlinarith, by nlinarith⟩
  have hmem_x : x ∈ Set.Icc (-(π / 2)) (π / 2) :=
    ⟨by nlinarith, by nlinarith⟩
  have hba := Real.sin_bound (x := a) (by rw [abs_of_nonneg ha0]; exact ha1)
  have hbb := Real.sin_bound (x := b) (by rw [abs_of_nonneg hb0]; exact hb1)
  rw [abs_of_nonneg ha0] at hba
  rw [abs_of_nonneg hb0] at hbb
  have h1 := abs_le.mp hba
  have h2 := abs_le.mp hbb
  have hm1 := Real.strictMonoOn_sin.monotoneOn hmem_a hmem_x hax
  have hm2 := Real.strictMonoOn_sin.monotoneOn hmem_x hmem_b hxb
  exact ⟨by linarith [h1.1], by linarith [h2.2]⟩

lemma cos_bounds_of_bracket {x a b cl cu : ℝ} (hax : a ≤ x) (hxb : x ≤ b)
    (ha0 : 0 ≤ a) (hb1 : b ≤ 1)
    (hcl : cl ≤ 1 - b ^ 2 / 2 - b ^ 4 * (5 / 96))
    (hcu : 1 - a ^ 2 / 2 + a ^ 4 * (5 / 96) ≤ cu) :
    cl ≤ Real.cos x ∧ Real.cos x ≤ cu := by
  have hb0 : 0 ≤ b := le_trans ha0 (le_trans hax hxb)
  have ha1 : a ≤ 1 := le_trans (le_trans hax hxb) hb1
  have hpi : (1 : ℝ) < π := by nlinarith [pi_gt_three]
  have hmem_a : a ∈ Set.Icc 0 π := ⟨ha0, by nlinarith⟩
  have hmem_b : b ∈ Set.Icc 0 π := ⟨hb0, by nlinarith⟩
  have hmem_x : x ∈ Set.Icc 0 π := ⟨le_trans ha0 hax, by nlinarith⟩
  have hba := Real.cos_bound (x := a) (by rw [abs_of_nonneg ha0]; exact ha1)
  have hbb := Real.cos_bound (x := b) (by rw [abs_of_nonneg hb0]; exact hb1)
  rw [abs_of_nonneg ha0] at hba
  rw [abs_of_nonneg hb0] at hbb
  have h1 := abs_le.mp hba
  have h2 := abs_le.mp hbb
  have hm1 := Real.strictAntiOn_cos.antitoneOn hmem_x hmem_b hxb
  have hm2 := Real.strictAntiOn_cos.antitoneOn hmem_a hmem_x hax
  exact ⟨by linarith [h2.1], by linarith [h1.2]⟩

set_option maxHeartbeats 1000000 in
lemma cosLat1_bounds :
    (0.6219573 : ℝ) ≤ Real.cos (51.5074 * π / 180) ∧
      Real.cos (51.5074 * π / 180) ≤ 0.6230657 := by
  have hpl : (3.141592 : ℝ) < π := pi_gt_d6
  have hpu : π < 3.141593 := pi_lt_d6
  have hq11 : (0.22474338 : ℝ) ≤ 51.5074 * π / 720 := by linarith
  have hq12 : (51.5074 : ℝ) * π / 720 ≤ 0.22474346 := by linarith
  obtain ⟨hs11, hs12⟩ :=
    sin_bounds_of_bracket hq11 hq12 (by norm_num) (by norm_num)
      (show (0.2227185 : ℝ) ≤ _ by norm_num) (show _ ≤ (0.2229845 : ℝ) by norm_num)
  obtain ⟨hc11, hc12⟩ :=
    cos_bounds_of_bracket hq11 hq12 (by norm_num) (by norm_num)
      (show (0.9746122 : ℝ) ≤ _ by norm_num) (show _ ≤ (0.9748782 : ℝ) by norm_num)
  have hsh1 : Real.sin (51.5074 * π / 360) =
      2 * Real.sin (51.5074 * π / 720) * Real.cos (51.5074 * π / 720) := by
    rw [show (51.5074 : ℝ) * π / 360 = 2 * (51.5074 * π / 720) by ring, Real.sin_two_mul]
  obtain ⟨hp11, hp12⟩ := mul_bounds hs11 hs12 hc11 hc12 (by norm_num) (by norm_num)
  have hsh1b : (0.4341281 : ℝ) ≤ Real.sin (51.5074 * π / 360) ∧
      Real.sin (51.5074 * π / 360) ≤ 0.4347658 := by
    rw [hsh1]
    constructor <;> linarith
  obtain ⟨hq1sq, hq2sq⟩ := sq_bounds hsh1b.1 hsh1b.2 (by norm_num)
  rw [show (51.5074 : ℝ) * π / 180 = 2 * (51.5074 * π / 360) by ring, cos_double_sin_sq]
  constructor <;> linarith

set_option maxHeartbeats 1000000 in
lemma cosLat2_bounds :
    (0.6575933 : ℝ) ≤ Real.cos (48.8566 * π / 180) ∧
      Real.cos (48.8566 * π / 180) ≤ 0.6584419 := by
  have hpl : (3.141592 : ℝ) < π := pi_gt_d6
  have hpu : π < 3.141593 := pi_lt_d6
  have hq21 : (0.21317708 : ℝ) ≤ 48.8566 * π / 720 := by linarith
  have hq22 : (48.8566 : ℝ) * π / 720 ≤ 0.21317716 := by linarith
  obtain ⟨hs21, hs22⟩ :=
    sin_bounds_of_bracket hq21 hq22 (by norm_num) (by norm_num)
      (show (0.2114548 : ℝ) ≤ _ by norm_num) (show _ ≤ (0.2116702 : ℝ) by norm_num)
  obtain ⟨hc21, hc22⟩ :=
    cos_bounds_of_bracket hq21 hq22 (by norm_num) (by norm_num)
      (show (0.9771700 : ℝ) ≤ _ by norm_num) (show _ ≤ (0.9773855 : ℝ) by norm_num)
  have hsh2 : Real.sin (48.8566 * π / 360) =
      2 * Real.sin (48.8566 * π / 720) * Real.cos (48.8566 * π / 720) := by
    rw [show (48.8566 : ℝ) * π / 360 = 2 * (48.8566 * π / 720) by ring, Real.sin_two_mul]
  obtain ⟨hp21, hp22⟩ := mul_bounds hs21 hs22 hc21 hc22 (by norm_num) (by norm_num)
  have hsh2b : (0.4132543 : ℝ) ≤ Real.sin (48.8566 * π / 360) ∧
      Real.sin (48.8566 * π / 360) ≤ 0.4137672 := by
    rw [hsh2]
    constructor <;> linarith
  obtain ⟨hr1sq, hr2sq⟩ := sq_bounds hsh2b.1 hsh2b.2 (by norm_num)
  rw [show (48.8566 : ℝ) * π / 180 = 2 * (48.8566 * π / 360) by ring, cos_double_sin_sq]
  constructor <;> linarith

set_option maxHeartbeats 1000000 in
lemma havLP_bounds :
    0.0007265 ≤ haversineA 51.5074 (-0.1278) 48.8566 2.3522 ∧
      haversineA 51.5074 (-0.1278) 48.8566 2.3522 ≤ 0.0007273 := by
  have hpl : (3.141592 : ℝ) < π := pi_gt_d6
  have hpu : π < 3.141593 := pi_lt_d6
  have hA1 : (0.02313258 : ℝ) ≤ 1.3254 * π / 180 := by linarith
  have hA2 : (1.3254 : ℝ) * π / 180 ≤ 0.02313260 := by linarith
  have hB1 : (0.02164207 : ℝ) ≤ 1.24 * π / 180 := by linarith
  have hB2 : (1.24 : ℝ) * π / 180 ≤ 0.02164209 := by linarith
  obtain ⟨hsA1, hsA2⟩ :=
    sin_bounds_of_bracket hA1 hA2 (by norm_num) (by norm_num)
      (show (0.02313050 : ℝ) ≤ _ by norm_num) (show _ ≤ (0.02313056 : ℝ) by norm_num)
  obtain ⟨hsB1, hsB2⟩ :=
    sin_bounds_of_bracket hB1 hB2 (by norm_num) (by norm_num)
      (show (0.02164036 : ℝ) ≤ _ by norm_num) (show _ ≤ (0.02164042 : ℝ) by norm_num)
  obtain ⟨hco1l, hco1u⟩ := cosLat1_bounds
  obtain ⟨hco2l, hco2u⟩ := cosLat2_bounds
  obtain ⟨hc12l, hc12u⟩ :=
    mul_bounds hco1l hco1u hco2l hco2u (by norm_num) (by norm_num)
  obtain ⟨hTA1, hTA2⟩ := sq_bounds hsA1 hsA2 (by norm_num)
  obtain ⟨hTB1, hTB2⟩ := sq_bounds hsB1 hsB2 (by norm_num)
  obtain ⟨hctx1, hctx2⟩ :=
    mul_bounds hc12l hc12u hTB1 hTB2 (by norm_num) (by norm_num)
  unfold haversineA
  rw [show (48.8566 - 51.5074 : ℝ) * π / 180 / 2 = -(1.3254 * π / 180) by ring,
    show (2.3522 - -0.1278 : ℝ) * π / 180 / 2 = 1.24 * π / 180 by ring,
    Real.sin_neg]
  constructor <;> nlinarith [hctx1, hctx2, hTA1, hTA2]

/-- C9: the Haversine distance from London (51.5074, -0.1278) to Paris
(48.8566, 2.3522) lies between 343 and 344 kilometers. -/
theorem C9_london_paris_range :
    343 ≤ calculateDistance 51.5074 (-0.1278) 48.8566 2.3522 ∧
      calculateDistance 51.5074 (-0.1278) 48.8566 2.3522 ≤ 344 := by
  obtain ⟨haL, haU⟩ := havLP_bounds
  have h0 : (0 : ℝ) ≤ haversineA 51.5074 (-0.1278) 48.8566 2.3522 := by linarith
  have h1 : haversineA 51.5074 (-0.1278) 48.8566 2.3522 < 1 := by linarith
  have hpi3 : (3 : ℝ) < π := pi_gt_three
  -- the central angle is 2 * arcsin √a
  unfold calculateDistance centralAngle
  rw [atan2_sqrt_eq_arcsin h0 h1]
  -- √a is bracketed by sines of the target angles
  obtain ⟨-, hs343⟩ :=
    sin_bounds_of_bracket (le_refl ((343 : ℝ) / 12742)) (le_refl ((343 : ℝ) / 12742))
      (by norm_num) (by norm_num)
      (show (0.0269155 : ℝ) ≤ _ by norm_num) (show _ ≤ (0.0269157 : ℝ) by norm_num)
  obtain ⟨hs344, -⟩ :=
    sin_bounds_of_bracket (le_refl ((344 : ℝ) / 12742)) (le_refl ((344 : ℝ) / 12742))
      (by norm_num) (by norm_num)
      (show (0.026971 : ℝ) ≤ _ by norm_num) (show _ ≤ (0.02700 : ℝ) by norm_num)
  have hsqL : Real.sin (343 / 12742) ≤
      Real.sqrt (haversineA 51.5074 (-0.1278) 48.8566 2.3522) := by
    have h2 : (0.0269157 : ℝ) ≤ Real.sqrt (haversineA 51.5074 (-0.1278) 48.8566 2.3522) := by
      rw [Real.le_sqrt' (by norm_num)]
      have h3 : ((0.0269157 : ℝ)) ^ 2 ≤ 0.0007265 := by norm_num
      linarith
    linarith
  have hsqU : Real.sqrt (haversineA 51.5074 (-0.1278) 48.8566 2.3522) ≤
      Real.sin (344 / 12742) := by
    have h2 : Real.sqrt (haversineA 51.5074 (-0.1278) 48.8566 2.3522) ≤ 0.026971 := by
      rw [show (0.026971 : ℝ) = Real.sqrt (0.026971 ^ 2) from
        (Real.sqrt_sq (by norm_num)).symm]
      apply Real.sqrt_le_sqrt
      have h3 : (0.0007273 : ℝ) ≤ (0.026971 : ℝ) ^ 2 := by norm_num
      linarith
    linarith
  -- transfer through arcsin
  have harcL : (343 : ℝ) / 12742 ≤
      arcsin (Real.sqrt (haversineA 51.5074 (-0.1278) 48.8566 2.3522)) := by
    have hm := Real.monotone_arcsin hsqL
    rwa [Real.arcsin_sin (by linarith) (by linarith)] at hm
  have harcU : arcsin (Real.sqrt (haversineA 51.5074 (-0.1278) 48.8566 2.3522)) ≤
      (344 : ℝ) / 12742 := by
    have hm := Real.monotone_arcsin hsqU
    rwa [Real.arcsin_sin (by linarith) (by linarith)] at hm
  constructor <;> linarith

/-! ## UI state embedding

The component's `useState` slots (App.jsx:5-42) are collected into `AppState`;
each event handler becomes a state-passing function, with the outcome of the
handler's network call passed in as a parameter (the model environment).  JS
`null`-able coordinate slots are `Option ℝ`; JS truthiness of such a slot
(`null` and `0` are falsy) is `truthy`. -/

/-- JS truthiness of a nullable numeric slot: `null` (`none`) and `0` are
falsy, every other number is truthy (`NaN` is not modelled). -/
def truthy : Option ℝ → Prop
  | none => False
  | some x => x ≠ 0

/-- `Number.prototype.toFixed(2)` (App.jsx:467), as the rounded numeric value
shown in the UI: the nearest multiple of 1/100, half rounded up. -/
def toFixed2 (x : ℝ) : ℝ := (⌊x * 100 + 1 / 2⌋ : ℝ) / 100

/-- One entry of Nominatim's forward-geocoding response, as consumed by the
app (`lat`, `lon`, `display_name`; App.jsx:408-411). -/
structure GeoLocation where
  lat : ℝ
  lon : ℝ
  display_name : String

/-- The `formData` state (App.jsx:7-21). -/
structure FormData where
  distance_km : ℝ
  kwh : ℝ
  hour : ℤ
  day_of_week : ℤ
  is_weekend : ℤ
  location : String
  vehicle_type : String
  start_lat : Option ℝ
  start_lon : Option ℝ
  end_lat : Option ℝ
  end_lon : Option ℝ
  start_location_name : String
  end_location_name : String

/-- The `locationSearch` state (App.jsx:22-29).  The JS field `end` is
rendered here as `end'`. -/
structure LocationSearch where
  start : String
  end' : String
  startSuggestions : List GeoLocation
  endSuggestions : List GeoLocation
  searchingStart : Bool
  searchingEnd : Bool

/-- The part of a `/predict` response body the state transitions inspect:
`data.predictions.bayesian?.mean` (App.jsx:82); `none` models a missing
`bayesian` entry.  The rest of the response is carried opaquely by the
`predictions` state slot and only rendered. -/
structure PredResponse where
  bayesian_mean : Option ℝ

/-- The `optimization` slot's payload (`data.optimization`), never inspected
by the transitions we verify. -/
structure Optimization

/-- One entry of the `history` state (App.jsx:78-83). -/
structure HistoryEntry where
  timestamp : String
  domain : String
  input : ℝ
  bayesian : ℝ

/-- All `useState` slots of the component (App.jsx:5-42). -/
structure AppState where
  domain : String
  formData : FormData
  locationSearch : LocationSearch
  predictions : Option PredResponse
  optimization : Option Optimization
  loading : Bool
  loadingOptimization : Bool
  error : Option String
  history : List HistoryEntry

/-- The initial state (the `useState` initial values, App.jsx:5-42). -/
def initialState : AppState where
  domain := "transport"
  formData :=
    { distance_km := 5, kwh := 2, hour := 12, day_of_week := 3, is_weekend := 0,
      location := "UK", vehicle_type := "petrol_car",
      start_lat := none, start_lon := none, end_lat := none, end_lon := none,
      start_location_name := "", end_location_name := "" }
  locationSearch :=
    { start := "", end' := "", startSuggestions := [], endSuggestions := [],
      searchingStart := false, searchingEnd := false }
  predictions := none
  optimization := none
  loading := false
  loadingOptimization := false
  error := none
  history := []

/-- Outcome of the `fetch` performed by `handlePredict`: a 2xx response with
parsed body, a non-success HTTP status (`!response.ok`), or a rejected fetch
whose `Error` carries `msg`. -/
inductive FetchOutcome where
  | success (data : PredResponse)
  | httpFailure
  | networkFailure (msg : String)

/-- Outcome of the `fetch` performed by `handleOptimize`. -/
inductive OptFetchOutcome where
  | success (data : Optimization)
  | httpFailure
  | networkFailure (msg : String)

/-- Outcome of the forward-geocoding `fetch` in `searchLocation`. -/
inductive GeoOutcome where
  | success (data : List GeoLocation)
  | httpFailure
  | networkFailure

/-- Outcome of the reverse-geocoding `fetch` in `setStartMarker` /
`setEndMarker`: a 2xx response carrying `display_name`, or any failure. -/
inductive RevOutcome where
  | success (display_name : String)
  | failure

/-- `Array.prototype.slice(-10)` (App.jsx:83): the last ten elements. -/
def sliceLastTen {α : Type} (l : List α) : List α := l.drop (l.length - 10)

/-- The history entry built by a successful `handlePredict` (App.jsx:78-83). -/
def predictEntry (s : AppState) (ts : String) (data : PredResponse) : HistoryEntry where
  timestamp := ts
  domain := s.domain
  input := if s.domain = "transport" then s.formData.distance_km else s.formData.kwh
  bayesian := data.bayesian_mean.getD 0

/-- `handlePredict` (App.jsx:44-90): `setLoading(true); setError(null)`, then
the fetch; on success the response is stored and the history appended and
truncated; a non-ok status throws `Error('Prediction failed')`; any thrown
error's message is stored in `error`; `finally` resets `loading`.  `ts` is the
wall-clock value of `new Date().toLocaleTimeString()`. -/
def handlePredict (s : AppState) (ts : String) (o : FetchOutcome) : AppState :=
  match o with
  | .success data =>
      { s with
        loading := false
        error := none
        predictions := some data
        history := sliceLastTen (s.history ++ [predictEntry s ts data]) }
  | .httpFailure => { s with loading := false, error := some "Prediction failed" }
  | .networkFailure msg => { s with loading := false, error := some msg }

/-- `handleOptimize` (App.jsx:92-123): no `setError(null)` at the start; a
non-ok status throws `Error('Optimization failed')`; `finally` resets
`loadingOptimization`. -/
def handleOptimize (s : AppState) (o : OptFetchOutcome) : AppState :=
  match o with
  | .success data => { s with loadingOptimization := false, optimization := some data }
  | .httpFailure => { s with loadingOptimization := false, error := some "Optimization failed" }
  | .networkFailure msg => { s with loadingOptimization := false, error := some msg }

/-- `searchLocation` (App.jsx:125-165).  A query shorter than 3 characters
clears the corresponding suggestion list and performs no fetch.  Otherwise the
searching flag is set; on a 2xx response the suggestions are replaced and the
flag cleared; on a non-ok status nothing further happens (the flag stays set,
the suggestions are untouched); on a rejected fetch only the flag is cleared. -/
def searchLocation (s : AppState) (query : String) (isStart : Bool) (o : GeoOutcome) : AppState :=
  if query.length < 3 then
    { s with locationSearch :=
        if isStart then { s.locationSearch with startSuggestions := [] }
        else { s.locationSearch with endSuggestions := [] } }
  else
    match o with
    | .success data =>
        { s with locationSearch :=
            if isStart then
              { s.locationSearch with startSuggestions := data, searchingStart := false }
            else
              { s.locationSearch with endSuggestions := data, searchingEnd := false } }
    | .httpFailure =>
        { s with locationSearch :=
            if isStart then { s.locationSearch with searchingStart := true }
            else { s.locationSearch with searchingEnd := true } }
    | .networkFailure =>
        { s with locationSearch :=
            if isStart then { s.locationSearch with searchingStart := false }
            else { s.locationSearch with searchingEnd := false } }

/-- `handleLocationSelect` (App.jsx:408-452): store the selected entry's
coordinates and name, clear the suggestion list, and — when the opposite
coordinate pair is truthy in the closed-over `formData` — recompute the
distance into `distance_km` via `calculateDistance` and `toFixed(2)`. -/
def handleLocationSelect (s : AppState) (loc : GeoLocation) (isStart : Bool) : AppState :=
  let fd := s.formData
  let fd1 :=
    if isStart then
      { fd with
        start_lat := some loc.lat
        start_lon := some loc.lon
        start_location_name := loc.display_name }
    else
      { fd with
        end_lat := some loc.lat
        end_lon := some loc.lon
        end_location_name := loc.display_name }
  let ls1 :=
    if isStart then
      { s.locationSearch with start := loc.display_name, startSuggestions := [] }
    else
      { s.locationSearch with end' := loc.display_name, endSuggestions := [] }
  let fd2 :=
    if isStart then
      if truthy fd.end_lat ∧ truthy fd.end_lon then
        { fd1 with distance_km :=
            toFixed2 (calculateDistance loc.lat loc.lon (fd.end_lat.getD 0) (fd.end_lon.getD 0)) }
      else fd1
    else
      if truthy fd.start_lat ∧ truthy fd.start_lon then
        { fd1 with distance_km :=
            toFixed2 (calculateDistance (fd.start_lat.getD 0) (fd.start_lon.getD 0) loc.lat loc.lon) }
      else fd1
  { s with formData := fd2, locationSearch := ls1 }

/-- `setStartMarker` (App.jsx:335-367): store the clicked/dragged coordinate;
on a 2xx reverse-geocoding response also store the place name; then — when the
end pair is truthy in the closed-over `formData` — recompute the distance. -/
def setStartMarker (s : AppState) (lat lng : ℝ) (rev : RevOutcome) : AppState :=
  let fd := s.formData
  let fd1 := { fd with start_lat := some lat, start_lon := some lng }
  let fd2 :=
    match rev with
    | .success name => { fd1 with start_location_name := name }
    | .failure => fd1
  let ls1 :=
    match rev with
    | .success name => { s.locationSearch with start := name }
    | .failure => s.locationSearch
  let fd3 :=
    if truthy fd.end_lat ∧ truthy fd.end_lon then
      { fd2 with distance_km :=
          toFixed2 (calculateDistance lat lng (fd.end_lat.getD 0) (fd.end_lon.getD 0)) }
    else fd2
  { s with formData := fd3, locationSearch := ls1 }

/-- `setEndMarker` (App.jsx:369-401), symmetric to `setStartMarker`. -/
def setEndMarker (s : AppState) (lat lng : ℝ) (rev : RevOutcome) : AppState :=
  let fd := s.formData
  let fd1 := { fd with end_lat := some lat, end_lon := some lng }
  let fd2 :=
    match rev with
    | .success name => { fd1 with end_location_name := name }
    | .failure => fd1
  let ls1 :=
    match rev with
    | .success name => { s.locationSearch with end' := name }
    | .failure => s.locationSearch
  let fd3 :=
    if truthy fd.start_lat ∧ truthy fd.start_lon then
      { fd2 with distance_km :=
          toFixed2 (calculateDistance (fd.start_lat.getD 0) (fd.start_lon.getD 0) lat lng) }
    else fd2
  { s with formData := fd3, locationSearch := ls1 }

/-- `clearLocation` (App.jsx:471-497). -/
def clearLocation (s : AppState) (isStart : Bool) : AppState :=
  if isStart then
    { s with
      formData :=
        { s.formData with
          start_lat := none
          start_lon := none
          start_location_name := "" }
      locationSearch := { s.locationSearch with start := "", startSuggestions := [] } }
  else
    { s with
      formData :=
        { s.formData with
          end_lat := none
          end_lon := none
          end_location_name := "" }
      locationSearch := { s.locationSearch with end' := "", endSuggestions := [] } }

/-- The calculated-distance card (App.jsx:737-745) renders exactly when
`formData.start_lat && formData.end_lat` is truthy, and shows
`formData.distance_km`. -/
def displayedDistance (s : AppState) : Option ℝ :=
  if truthy s.formData.start_lat ∧ truthy s.formData.end_lat then
    some s.formData.distance_km
  else none

/-- The error card (App.jsx:874-879) renders exactly when `error` is truthy
(the empty string is falsy). -/
def displayedError (s : AppState) : Option String :=
  match s.error with
  | none => none
  | some m => if m = "" then none else some m

/-- Every state-changing user/network event the embedded handlers produce;
`editForm` covers the plain controlled form inputs, which only replace
`formData` fields (App.jsx:758, 773, 786, 801, 823, 836, 848), and
`setDomain` the domain toggle (App.jsx:604). -/
inductive Event where
  | predict (ts : String) (o : FetchOutcome)
  | optimize (o : OptFetchOutcome)
  | search (query : String) (isStart : Bool) (o : GeoOutcome)
  | select (loc : GeoLocation) (isStart : Bool)
  | clear (isStart : Bool)
  | startMarker (lat lng : ℝ) (rev : RevOutcome)
  | endMarker (lat lng : ℝ) (rev : RevOutcome)
  | setDomain (d : String)
  | editForm (fd : FormData)

/-- One transition of the component. -/
def step (s : AppState) : Event → AppState
  | .predict ts o => handlePredict s ts o
  | .optimize o => handleOptimize s o
  | .search q isStart o => searchLocation s q isStart o
  | .select loc isStart => handleLocationSelect s loc isStart
  | .clear isStart => clearLocation s isStart
  | .startMarker lat lng rev => setStartMarker s lat lng rev
  | .endMarker lat lng rev => setEndMarker s lat lng rev
  | .setDomain d => { s with domain := d }
  | .editForm fd => { s with formData := fd }

/-- A run of the component from a state through a list of events. -/
def run (s : AppState) (es : List Event) : AppState := es.foldl step s

/-! ## Debounce (App.jsx:167-175, 646-649, 697-700)

`debounce(func, wait)` returns a closure holding one `timeout` slot; each call
clears the pending timer of *that closure* and schedules `func(...args)` after
`wait` ms.  `debounceFires` gives the semantics of one persistent closure over
a time-sorted call list: a scheduled timer fires unless the next call to the
same closure arrives strictly before `wait` ms have elapsed.

The component, however, evaluates `debounce(searchLocation, 500)` in its body,
so every render builds a fresh closure.  Each keystroke's `onChange` first
calls `setLocationSearch` (the input is controlled, so the component re-renders
before the next keystroke) and then the *current* render's closure.  Every
keystroke therefore talks to a closure whose `timeout` slot is still
`undefined`: its `clearTimeout(undefined)` is a no-op, no earlier timer is
ever cleared, and every scheduled timer fires.  `rerenderedDebounceFires`
captures this. -/

/-- Calls to one persistent `debounce(func, wait)` closure whose timers fire:
the timer set at `t₁` is cleared exactly when the next call arrives at
`t₂ < t₁ + wait`. -/
def debounceFires (wait : ℕ) : List (ℕ × String) → List String
  | [] => []
  | [(_, q)] => [q]
  | (t₁, q₁) :: (t₂, q₂) :: rest =>
      (if t₂ < t₁ + wait then [] else [q₁]) ++ debounceFires wait ((t₂, q₂) :: rest)

/-- Calls reaching `func` when each call goes to a freshly recreated debounce
closure (one render per keystroke): no timer is ever cleared, all fire. -/
def rerenderedDebounceFires (_wait : ℕ) (events : List (ℕ × String)) : List String :=
  events.map Prod.snd

/-- The geocoding requests actually dispatched by a list of `searchLocation`
invocations: `searchLocation` returns without fetching when the query is
shorter than 3 characters (App.jsx:126-132). -/
def dispatchedRequests (calls : List String) : List String :=
  calls.filter (fun q => 3 ≤ q.length)

/-- C3 (code bug): two keystrokes 300 ms apart — closer than the 500 ms
quiescence interval — dispatch *two* geocoding requests, including the
non-final query, because `debouncedSearch` is rebuilt on every render and the
first timer is never cleared.  A single persistent `debounce` closure (the
evident intent, last conjunct) would dispatch exactly one request carrying the
final query. -/
theorem C3_rerender_breaks_debounce :
    dispatchedRequests (rerenderedDebounceFires 500 [(0, "lon"), (300, "lond")]) =
        ["lon", "lond"] ∧
      2 ≤ (dispatchedRequests (rerenderedDebounceFires 500 [(0, "lon"), (300, "lond")])).length ∧
      (300 : ℕ) < 0 + 500 ∧
      dispatchedRequests (debounceFires 500 [(0, "lon"), (300, "lond")]) = ["lond"] := by
  refine ⟨rfl, ?_, by norm_num, rfl⟩
  rw [show dispatchedRequests (rerenderedDebounceFires 500 [(0, "lon"), (300, "lond")]) =
    ["lon", "lond"] from rfl]
  norm_num

/-- C2: a failed `/predict` call — non-success HTTP status, or a rejected
fetch whose error message is non-empty (the browser's network `TypeError`
always carries one) — leaves `predictions` unchanged, sets `error` to a
non-empty message, and resets `loading` when the call completes. -/
theorem C2_predict_failure (s : AppState) (ts : String) (o : FetchOutcome)
    (h : o = .httpFailure ∨ ∃ msg, msg ≠ "" ∧ o = .networkFailure msg) :
    (handlePredict s ts o).predictions = s.predictions ∧
      (∃ m, (handlePredict s ts o).error = some m ∧ m ≠ "") ∧
      (handlePredict s ts o).loading = false := by
  rcases h with h | ⟨msg, hm, h⟩ <;> subst h
  · exact ⟨rfl, ⟨"Prediction failed", rfl, by decide⟩, rfl⟩
  · exact ⟨rfl, ⟨msg, rfl, hm⟩, rfl⟩

/-- Witness for C2: an HTTP failure from the initial state. -/
theorem C2_witness :
    (handlePredict initialState "10:00:00" .httpFailure).predictions =
        initialState.predictions ∧
      (∃ m, (handlePredict initialState "10:00:00" .httpFailure).error = some m ∧ m ≠ "") ∧
      (handlePredict initialState "10:00:00" .httpFailure).loading = false :=
  C2_predict_failure initialState "10:00:00" .httpFailure (Or.inl rfl)

/-- A state in which an earlier successful search has left one suggestion. -/
def stateWithSuggestion : AppState :=
  { initialState with
    locationSearch :=
      { initialState.locationSearch with
        startSuggestions := [⟨51.5074, -0.1278, "London, England, United Kingdom"⟩] } }

/-- C5 counterexample: a failed forward-geocoding request does *not* degrade
the suggestion list to the empty list — the previous suggestions survive
unchanged (`searchLocation` only touches the suggestions on a 2xx response or
a short query). -/
theorem C5_counterexample :
    (searchLocation stateWithSuggestion "london" true .networkFailure).locationSearch.startSuggestions =
        [⟨51.5074, -0.1278, "London, England, United Kingdom"⟩] ∧
      (searchLocation stateWithSuggestion "london" true .networkFailure).locationSearch.startSuggestions ≠
        [] := by
  constructor
  · rfl
  · rw [show (searchLocation stateWithSuggestion "london" true .networkFailure).locationSearch.startSuggestions =
      [⟨51.5074, -0.1278, "London, England, United Kingdom"⟩] from rfl]
    simp

/-- C5 as amended: a failed forward-geocoding search (network error or non-ok
HTTP status, which can only occur for queries of length ≥ 3) raises no
user-visible error — the `error` slot and its rendering are untouched — and
leaves both suggestion lists unchanged (rather than emptying them). -/
theorem C5_geocode_failure_silent (s : AppState) (q : String) (isStart : Bool)
    (o : GeoOutcome) (hq : 3 ≤ q.length)
    (ho : o = .httpFailure ∨ o = .networkFailure) :
    displayedError (searchLocation s q isStart o) = displayedError s ∧
      (searchLocation s q isStart o).error = s.error ∧
      (searchLocation s q isStart o).locationSearch.startSuggestions =
        s.locationSearch.startSuggestions ∧
      (searchLocation s q isStart o).locationSearch.endSuggestions =
        s.locationSearch.endSuggestions := by
  have hq' : ¬ q.length < 3 := by omega
  rcases ho with h | h <;> subst h <;> cases isStart <;>
    simp [searchLocation, displayedError, hq']

/-- Witness for C5 at a concrete failed search. -/
theorem C5_witness :
    displayedError (searchLocation stateWithSuggestion "london" true .httpFailure) =
        displayedError stateWithSuggestion ∧
      (searchLocation stateWithSuggestion "london" true .httpFailure).locationSearch.startSuggestions =
        stateWithSuggestion.locationSearch.startSuggestions :=
  ⟨(C5_geocode_failure_silent stateWithSuggestion "london" true .httpFailure
      (by decide) (Or.inl rfl)).1,
    (C5_geocode_failure_silent stateWithSuggestion "london" true .httpFailure
      (by decide) (Or.inl rfl)).2.2.1⟩

lemma calculateDistance_nonneg (lat1 lon1 lat2 lon2 : ℝ) :
    0 ≤ calculateDistance lat1 lon1 lat2 lon2 := by
  unfold calculateDistance centralAngle
  have h := atan2_nonneg (sqrt_nonneg (haversineA lat1 lon1 lat2 lon2))
    (sqrt_nonneg (1 - haversineA lat1 lon1 lat2 lon2))
  linarith

lemma toFixed2_nonneg {x : ℝ} (h : 0 ≤ x) : 0 ≤ toFixed2 x := by
  unfold toFixed2
  have h0 : (0 : ℤ) ≤ ⌊x * 100 + 1 / 2⌋ := by
    apply Int.floor_nonneg.mpr
    linarith
  have h0' : (0 : ℝ) ≤ (⌊x * 100 + 1 / 2⌋ : ℝ) := by exact_mod_cast h0
  linarith

lemma selectEnd_proj (s : AppState) (l : GeoLocation) :
    (handleLocationSelect s l false).formData.end_lat = some l.lat ∧
      (handleLocationSelect s l false).formData.end_lon = some l.lon ∧
      (handleLocationSelect s l false).formData.start_lat = s.formData.start_lat ∧
      (handleLocationSelect s l false).formData.start_lon = s.formData.start_lon := by
  simp only [handleLocationSelect]
  split_ifs <;> simp_all

lemma selectStart_proj (s : AppState) (l : GeoLocation) :
    (handleLocationSelect s l true).formData.start_lat = some l.lat ∧
      (handleLocationSelect s l true).formData.start_lon = some l.lon ∧
      (handleLocationSelect s l true).formData.end_lat = s.formData.end_lat ∧
      (handleLocationSelect s l true).formData.end_lon = s.formData.end_lon := by
  simp only [handleLocationSelect]
  split_ifs <;> simp_all

lemma selectStart_dist (s : AppState) (l : GeoLocation)
    (h : truthy s.formData.end_lat) (h' : truthy s.formData.end_lon) :
    (handleLocationSelect s l true).formData.distance_km =
      toFixed2 (calculateDistance l.lat l.lon (s.formData.end_lat.getD 0)
        (s.formData.end_lon.getD 0)) := by
  have hc : truthy s.formData.end_lat ∧ truthy s.formData.end_lon := ⟨h, h'⟩
  simp [handleLocationSelect, hc]

lemma selectEnd_dist (s : AppState) (l : GeoLocation)
    (h : truthy s.formData.start_lat) (h' : truthy s.formData.start_lon) :
    (handleLocationSelect s l false).formData.distance_km =
      toFixed2 (calculateDistance (s.formData.start_lat.getD 0)
        (s.formData.start_lon.getD 0) l.lat l.lon) := by
  have hc : truthy s.formData.start_lat ∧ truthy s.formData.start_lon := ⟨h, h'⟩
  simp [handleLocationSelect, hc]

lemma selectStart_dist_unchanged (s : AppState) (l : GeoLocation)
    (h : ¬ (truthy s.formData.end_lat ∧ truthy s.formData.end_lon)) :
    (handleLocationSelect s l true).formData.distance_km = s.formData.distance_km := by
  simp [handleLocationSelect, h]

lemma selectEnd_dist_unchanged (s : AppState) (l : GeoLocation)
    (h : ¬ (truthy s.formData.start_lat ∧ truthy s.formData.start_lon)) :
    (handleLocationSelect s l false).formData.distance_km = s.formData.distance_km := by
  simp [handleLocationSelect, h]

/-- The state reached from the initial state by selecting the equator point
(latitude 0) as the end location and then an inland point as the start
location. -/
def c4State : AppState :=
  handleLocationSelect (handleLocationSelect initialState ⟨0, 10, "Equator"⟩ false)
    ⟨20, 5, "Inland"⟩ true

/-- C4 counterexample: after selecting end = (0, 10) — on the equator — and
then start = (20, 5), both coordinate pairs are set, yet no distance is
displayed and `distance_km` still holds its initial value 5 (the truthiness
gates treat latitude 0 as unset, so nothing is recomputed and the distance
card is not rendered). -/
theorem C4_counterexample :
    c4State.formData.start_lat = some 20 ∧
      c4State.formData.start_lon = some 5 ∧
      c4State.formData.end_lat = some 0 ∧
      c4State.formData.end_lon = some 10 ∧
      displayedDistance c4State = none ∧
      c4State.formData.distance_km = 5 := by
  have hz : ¬ truthy (some (0 : ℝ)) := by simp [truthy]
  have hn : ¬ truthy (none : Option ℝ) := by simp [truthy]
  obtain ⟨e1, e2, e3, e4⟩ := selectEnd_proj initialState ⟨0, 10, "Equator"⟩
  obtain ⟨a1, a2, a3, a4⟩ :=
    selectStart_proj (handleLocationSelect initialState ⟨0, 10, "Equator"⟩ false)
      ⟨20, 5, "Inland"⟩
  have d1 : (handleLocationSelect initialState ⟨0, 10, "Equator"⟩ false).formData.distance_km = 5 := by
    rw [selectEnd_dist_unchanged initialState ⟨0, 10, "Equator"⟩ (fun hc => hn hc.1)]
    rfl
  have d2 : c4State.formData.distance_km = 5 := by
    unfold c4State
    rw [selectStart_dist_unchanged _ ⟨20, 5, "Inland"⟩ (fun hc => hz (e1 ▸ hc.1)), d1]
  refine ⟨?_, ?_, ?_, ?_, ?_, d2⟩
  · unfold c4State
    rw [a1]
  · unfold c4State
    rw [a2]
  · unfold c4State
    rw [a3, e1]
  · unfold c4State
    rw [a4, e2]
  · unfold displayedDistance c4State
    rw [if_neg (fun hc => hz ((a3.trans e1) ▸ hc.2))]

/-- C4 as amended: restricted to selections whose four coordinate values are
all nonzero (the code's truthiness gates `formData.*_lat && formData.*_lon`
treat the value 0 — the equator / prime meridian — like `null`, i.e. unset):
selecting the two endpoints in either order recomputes the distance from the
selected coordinates and displays it, the displayed value is non-negative,
and clearing either endpoint removes the displayed distance. -/
theorem C4_amended_route_distance (s : AppState) (l1 l2 : GeoLocation)
    (h1 : l1.lat ≠ 0) (h2 : l1.lon ≠ 0) (h3 : l2.lat ≠ 0) (_h4 : l2.lon ≠ 0) :
    (displayedDistance (handleLocationSelect (handleLocationSelect s l1 false) l2 true) =
        some (toFixed2 (calculateDistance l2.lat l2.lon l1.lat l1.lon)) ∧
      0 ≤ toFixed2 (calculateDistance l2.lat l2.lon l1.lat l1.lon)) ∧
      (displayedDistance (handleLocationSelect (handleLocationSelect s l1 true) l2 false) =
          some (toFixed2 (calculateDistance l1.lat l1.lon l2.lat l2.lon)) ∧
        0 ≤ toFixed2 (calculateDistance l1.lat l1.lon l2.lat l2.lon)) ∧
      ∀ b : Bool, displayedDistance (clearLocation s b) = none := by
  obtain ⟨e1, e2, _, _⟩ := selectEnd_proj s l1
  obtain ⟨s1', s2', e1', e2'⟩ := selectStart_proj s l1
  refine ⟨⟨?_, toFixed2_nonneg (calculateDistance_nonneg _ _ _ _)⟩,
    ⟨?_, toFixed2_nonneg (calculateDistance_nonneg _ _ _ _)⟩, ?_⟩
  · obtain ⟨a1, a2, a3, a4⟩ := selectStart_proj (handleLocationSelect s l1 false) l2
    have hd := selectStart_dist (handleLocationSelect s l1 false) l2
      (by rw [e1]; exact h1) (by rw [e2]; exact h2)
    unfold displayedDistance
    rw [if_pos ⟨by rw [a1]; exact h3, by rw [a3, e1]; exact h1⟩, hd, e1, e2]
    rfl
  · obtain ⟨b1, b2, b3, b4⟩ := selectEnd_proj (handleLocationSelect s l1 true) l2
    have hd := selectEnd_dist (handleLocationSelect s l1 true) l2
      (by rw [s1']; exact h1) (by rw [s2']; exact h2)
    unfold displayedDistance
    rw [if_pos ⟨by rw [b3, s1']; exact h1, by rw [b1]; exact h3⟩, hd, s1', s2']
    rfl
  · intro b
    cases b <;> simp [clearLocation, displayedDistance, truthy]

/-- Witness for C4 (amended) at Paris / London from the initial state. -/
theorem C4_witness :
    displayedDistance
        (handleLocationSelect
          (handleLocationSelect initialState ⟨48.8566, 2.3522, "Paris"⟩ false)
          ⟨51.5074, -0.1278, "London"⟩ true) =
      some (toFixed2 (calculateDistance 51.5074 (-0.1278) 48.8566 2.3522)) :=
  (C4_amended_route_distance initialState ⟨48.8566, 2.3522, "Paris"⟩
    ⟨51.5074, -0.1278, "London"⟩ (by norm_num) (by norm_num) (by norm_num)
    (by norm_num)).1.1

lemma sliceLastTen_length_le {α : Type} (l : List α) : (sliceLastTen l).length ≤ 10 := by
  simp [sliceLastTen]
  omega

lemma step_history_length_le (s : AppState) (e : Event)
    (h : s.history.length ≤ 10) : (step s e).history.length ≤ 10 := by
  cases e with
  | predict ts o =>
      cases o with
      | success data => exact sliceLastTen_length_le _
      | httpFailure => exact h
      | networkFailure msg => exact h
  | optimize o => cases o <;> exact h
  | search q isStart o =>
      cases o <;> simp only [step, searchLocation] <;> split_ifs <;> exact h
  | select loc isStart => exact h
  | clear isStart => cases isStart <;> exact h
  | startMarker lat lng rev => exact h
  | endMarker lat lng rev => exact h
  | setDomain d => exact h
  | editForm fd => exact h

/-- C10: every successful `handlePredict` appends one entry and truncates the
history to its last ten entries (`slice(-10)`), and consequently every
reachable state's history holds at most 10 entries. -/
theorem C10_history_bounded :
    (∀ (s : AppState) (ts : String) (data : PredResponse),
      (handlePredict s ts (.success data)).history =
        sliceLastTen (s.history ++ [predictEntry s ts data])) ∧
      ∀ es : List Event, (run initialState es).history.length ≤ 10 := by
  refine ⟨fun s ts data => rfl, fun es => ?_⟩
  suffices h : ∀ (s : AppState), s.history.length ≤ 10 → (run s es).history.length ≤ 10 by
    exact h initialState (by simp [initialState])
  induction es with
  | nil => exact fun s h => h
  | cons e es ih => exact fun s h => ih (step s e) (step_history_length_le s e h)

end

end CarbonSense
